import Mathlib

/-!
Verification of the AI furniture photoshoot tool (client-side web app).
The TypeScript source is embedded shallowly: React component state becomes
explicit state records, the external Gemini service becomes an oracle
parameter (`gen : String → String` for image generation, `Except` values for
fallible structured calls), and `crypto.randomUUID` becomes an id-supply
parameter.  JSZip's `zip.file` calls are modelled as the ordered list of
(name, content) registrations the exporter performs, folded into an archive
keyed by file name (`zip.file` replaces an existing entry of the same name).
-/

/-- Image category tag. `types.ts` declares `'studio' | 'lifestyle'`, but the
services and exporters also produce and test `'social'`, so the embedding uses
the three-valued type the code actually manipulates. -/
inductive ImageCategory where
  | studio
  | lifestyle
  | social
deriving DecidableEq

/-- Aspect ratio, from `sourceAspectRatio: '1:1' | '16:9' | '9:16'`. -/
inductive AspectRatio where
  | a1x1
  | a16x9
  | a9x16
deriving DecidableEq

/-- The `GeneratedImage` record of `types.ts`. -/
structure GeneratedImage where
  id : String
  title : String
  description : String
  base64 : String
  sourcePrompt : String
  sourceAspectRatio : AspectRatio
  category : ImageCategory
deriving DecidableEq

/-- The `ProductDetails` record of `types.ts`. -/
structure ProductDetails where
  names : List String
  description : String
  tags : List String
  seoTitle : String
  seoDescription : String
  socialMediaCaption : String
  measurements : String
  shipping : String
  careInstructions : String
  suggestedPrice : String
deriving DecidableEq

/-- The `VariationResult` record of `types.ts`; the `Record<string, string>`
attribute map is embedded as an association list in insertion order. -/
structure VariationResult where
  id : String
  variation : List (String × String)
  images : List GeneratedImage
deriving DecidableEq

/-- The `GeneratedContent` aggregate of `types.ts` (spec-sheet pipeline). -/
structure GeneratedContent where
  baseDetails : ProductDetails
  variationResults : List VariationResult
  furnitureCategory : String
deriving DecidableEq

/-- The aggregate returned by the style-driven `generateFullPhotoshoot`
(`{ details, images, furnitureCategory }`), the flat single-product shape. -/
structure GeneratedContentFlat where
  details : ProductDetails
  images : List GeneratedImage
  furnitureCategory : String
deriving DecidableEq

/-! ## CSV serialization (`src/utils/fileUtils.ts`, `toCSVString`) -/

/-- The test `/[",\n]/.test(str)` of `toCSVString`: does the field contain a
double quote, a comma, or a newline. -/
def csvNeedsQuoting (s : String) : Bool :=
  s.data.any (fun c => c = '"' || c = ',' || c = '\n')

/-- The global replace `str.replace(/"/g, '""')`: every double quote in the
field is doubled, character by character. -/
def csvEscapeQuotes : List Char → List Char
  | [] => []
  | c :: cs => if c = '"' then '"' :: '"' :: csvEscapeQuotes cs else c :: csvEscapeQuotes cs

/-- One field of `toCSVString`: quoted with embedded quotes doubled when the
field contains a comma, quote or newline, the field itself otherwise. -/
def csvField (s : String) : String :=
  if csvNeedsQuoting s then "\"" ++ String.mk (csvEscapeQuotes s.data) ++ "\"" else s

/-- The CSV serializer `toCSVString` of `src/utils/fileUtils.ts`: fields are
joined with `','`, rows with `'\n'`. -/
def toCSVString (rows : List (List String)) : String :=
  String.intercalate "\n" (rows.map (fun row => String.intercalate "," (row.map csvField)))

/-- The `escape` helper of `generateShopifyCSV` (`src/unnamed/part_006`): a
falsy (empty) string maps to `''`, otherwise the same quoting rule as
`toCSVString` via `includes` checks. -/
def shopifyCsvEscape (s : String) : String :=
  if s = "" then ""
  else if s.data.any (fun c => c = '"' || c = ',' || c = '\n') then
    "\"" ++ String.mk (csvEscapeQuotes s.data) ++ "\""
  else s

/-- Specification-side reading of quote doubling: each character maps to
itself, except a double quote which maps to two. -/
def doubledCharsSpec (cs : List Char) : List Char :=
  cs.flatMap (fun c => if c = '"' then ['"', '"'] else [c])

theorem csvEscapeQuotes_eq_spec (cs : List Char) :
    csvEscapeQuotes cs = doubledCharsSpec cs := by
  induction cs with
  | nil => rfl
  | cons c cs ih =>
      by_cases h : c = '"' <;> simp [csvEscapeQuotes, doubledCharsSpec, h] at ih ⊢ <;>
        simpa [doubledCharsSpec] using ih

theorem csvNeedsQuoting_iff (s : String) :
    csvNeedsQuoting s = true ↔ ∃ c ∈ s.data, c = ',' ∨ c = '"' ∨ c = '\n' := by
  simp only [csvNeedsQuoting, List.any_eq_true, Bool.or_eq_true, decide_eq_true_eq]
  constructor
  · rintro ⟨c, hc, h⟩
    exact ⟨c, hc, by tauto⟩
  · rintro ⟨c, hc, h⟩
    exact ⟨c, hc, by tauto⟩

/-! ## ZIP export utilities (`src/utils/fileUtils.ts`, `src/unnamed/part_005`)

Each exporter performs an ordered sequence of `zip.file(fileName, content)`
registrations; the exporter functions below return that sequence.  JSZip
stores files in an object keyed by name, so registering a name that already
exists replaces that entry's content in place rather than adding a second
entry; `zipArchive` folds the registration sequence into the resulting
archive accordingly.  The guard `typeof JSZip === 'undefined'` concerns the
hosting page, not this code, and is assumed to pass. -/

/-- One `zip.file(name, content)` call against an archive: an existing entry
with the same name is replaced in place (JSZip keys files by name), otherwise
the entry is appended. -/
def zipFileAdd (files : List (String × String)) (entry : String × String) :
    List (String × String) :=
  if files.any (fun e => e.1 = entry.1) then
    files.map (fun e => if e.1 = entry.1 then entry else e)
  else files ++ [entry]

/-- The archive produced by a sequence of `zip.file` registrations. -/
def zipArchive (registrations : List (String × String)) : List (String × String) :=
  registrations.foldl zipFileAdd []

/-- The filename sanitizer `title.replace(/[^a-z0-9]/gi, '_').toLowerCase()`:
every character outside ASCII letters and digits becomes `'_'`, then the
result is lowercased. -/
def sanitizeFileName (cs : List Char) : List Char :=
  (cs.map (fun c => if c.isAlphanum then c else '_')).map Char.toLower

/-- `createAndDownloadSocialMediaZip` of `src/utils/fileUtils.ts`: registers
`caption.txt` first, then one `<sanitized title>.png` entry per image. -/
def createAndDownloadSocialMediaZip (images : List GeneratedImage) (caption : String) :
    List (String × String) :=
  ("caption.txt", caption) ::
    images.map (fun image => (String.mk (sanitizeFileName image.title.data) ++ ".png", image.base64))

/-- `createAndDownloadZip` of `src/unnamed/part_005`: registers `details.txt`
first, then one `<index+1>_<sanitized title>.png` entry per image. -/
def createAndDownloadZip (images : List GeneratedImage) (productName productDescription : String) :
    List (String × String) :=
  ("details.txt", "Product Name: " ++ productName ++ "\n\nDescription:\n" ++ productDescription) ::
    images.enum.map (fun p =>
      (Nat.repr (p.1 + 1) ++ "_" ++ String.mk (sanitizeFileName p.2.title.data) ++ ".png",
       p.2.base64))

/-! ## Shopify export (`src/utils/fileUtils.ts`, `createAndDownloadShopifyZip`) -/

/-- The `ShopifyExportData` interface of `src/utils/fileUtils.ts`. -/
structure ShopifyExportData where
  images : List GeneratedImage
  productName : String
  description : String
  vendor : String
  price : String
  tags : List String
  productType : String
  seoTitle : String
  seoDescription : String
deriving DecidableEq

/-- The run-collapsing replace `/\s+/g → '-'`: a maximal run of whitespace
becomes a single dash.  The flag records whether the previous character was
part of a whitespace run already replaced. -/
def collapseWsRuns : Bool → List Char → List Char
  | _, [] => []
  | inRun, c :: cs =>
      if c.isWhitespace then
        if inRun then collapseWsRuns true cs else '-' :: collapseWsRuns true cs
      else c :: collapseWsRuns false cs

/-- The Shopify handle
`productName.toLowerCase().replace(/\s+/g, '-').replace(/[^a-z0-9-]/g, '')`. -/
def shopifyHandle (productName : String) : String :=
  String.mk (((productName.data.map Char.toLower) |> collapseWsRuns false).filter
    (fun c => ('a' ≤ c && c ≤ 'z') || ('0' ≤ c && c ≤ '9') || c = '-'))

/-- The fixed Shopify CSV header row. -/
def shopifyHeaders : List String :=
  ["Handle", "Title", "Body (HTML)", "Vendor", "Product Category", "Type", "Tags", "Published",
   "Option1 Name", "Option1 Value", "Variant SKU", "Variant Price", "Image Src", "Image Position",
   "Image Alt Text", "SEO Title", "SEO Description", "Gift Card"]

/-- The per-image filename `` `${handle}_${index + 1}_${safeTitle}.png` ``. -/
def shopifyImageName (handle : String) (index : Nat) (image : GeneratedImage) : String :=
  handle ++ "_" ++ Nat.repr (index + 1) ++ "_" ++ String.mk (sanitizeFileName image.title.data) ++ ".png"

/-- The CSV row pushed for the image at `index`: the first image's row carries
the full product details, every later row only handle, image filename,
position and alt text. -/
def shopifyRowFor (data : ShopifyExportData) (handle : String) (index : Nat)
    (image : GeneratedImage) : List String :=
  if index = 0 then
    [handle, data.productName, data.description, data.vendor, "Home & Garden > Furniture",
     data.productType, String.intercalate ", " data.tags, "TRUE", "Title", "Default Title", "",
     data.price, shopifyImageName handle index image, "1", image.title, data.seoTitle,
     data.seoDescription, "FALSE"]
  else
    [handle, "", "", "", "", "", "", "", "", "", "", "",
     shopifyImageName handle index image, Nat.repr (index + 1), image.title, "", "", ""]

/-- The non-social images the exporter keeps (the "Filter again" step). -/
def shopifyImagesOf (data : ShopifyExportData) : List GeneratedImage :=
  data.images.filter (fun img => img.category ≠ ImageCategory.social)

/-- All CSV rows of the Shopify export: headers, then one row per kept image. -/
def shopifyRowsOf (data : ShopifyExportData) : List (List String) :=
  shopifyHeaders ::
    (shopifyImagesOf data).enum.map (fun p => shopifyRowFor data (shopifyHandle data.productName) p.1 p.2)

/-- The image file entries of the Shopify ZIP, in registration order. -/
def shopifyImageEntriesOf (data : ShopifyExportData) : List (String × String) :=
  (shopifyImagesOf data).enum.map (fun p =>
    (shopifyImageName (shopifyHandle data.productName) p.1 p.2, p.2.base64))

/-- `createAndDownloadShopifyZip` of `src/utils/fileUtils.ts`: when no studio
or lifestyle image remains after filtering, it alerts and returns without
building a ZIP or a CSV (`none`); otherwise the ZIP holds one entry per kept
image plus `shopify_import.csv` serialized by `toCSVString`. -/
def createAndDownloadShopifyZip (data : ShopifyExportData) : Option (List (String × String)) :=
  if (shopifyImagesOf data).isEmpty then none
  else some (shopifyImageEntriesOf data ++ [("shopify_import.csv", toCSVString (shopifyRowsOf data))])

/-- `handleShopifyDownload` of `src/unnamed/part_002`: pre-filters social
images out before delegating to `createAndDownloadShopifyZip`. -/
def handleShopifyDownload (content : GeneratedContentFlat) (images : List GeneratedImage)
    (finalProductName : String) (description seoTitle seoDescription vendor price : String)
    (tags : List String) : Option (List (String × String)) :=
  createAndDownloadShopifyZip
    { images := images.filter (fun img => img.category ≠ ImageCategory.social),
      productName := finalProductName,
      description := description,
      vendor := vendor,
      price := price,
      tags := tags,
      productType := content.furnitureCategory,
      seoTitle := seoTitle,
      seoDescription := seoDescription }

/-! ## Prompt library and orchestrator (`src/unnamed/part_000`, style-driven
`generateFullPhotoshoot`, lines 580-757 of the concatenated services file) -/

/-- The `CreativeStyle` union of `types.ts`. -/
inductive CreativeStyle where
  | modern_suburban
  | scandinavian
  | moody_luxurious
  | warm_rustic
  | industrial_loft
deriving DecidableEq

/-- A `{ setting, prompt }` lifestyle scene entry. -/
structure ScenePrompt where
  setting : String
  prompt : String
deriving DecidableEq

/-- An `{ angle, prompt }` studio entry. -/
structure StudioPrompt where
  angle : String
  prompt : String
deriving DecidableEq

/-- A `{ format, prompt, aspectRatio }` social entry. -/
structure SocialPrompt where
  format : String
  prompt : String
  aspectRatio : AspectRatio
deriving DecidableEq

/-- The `commonInstructions` suffix shared by every lifestyle scene prompt. -/
def commonInstructions : String :=
  "The furniture's texture must be rendered with hyper-realistic fidelity. The final image must be an ultra-realistic, cinematic photograph. There should be NO vignetting, lens flare, or artificial light gradients. The furniture must be perfectly integrated with realistic contact shadows. Avoid showing any cityscapes or prominent sky. Ensure all areas, including the edges and corners of the frame, are free of any unnatural shading, discoloration, or grey spots."

/-- The `living` scene list of `scenes.modern_suburban` in `getPromptLibraries`. -/
def scenes_modern_suburban_living : List ScenePrompt :=
  [⟨"Modern Open-Concept Living Room",
    "Task: Place the furniture from the user's image, shot from a straight-on perspective, into a spacious, open-concept living room within a high-end suburban house. The room features light oak hardwood floors, high ceilings, and a neutral, minimalist color palette. The primary light source is bright, indirect natural light from a large wall of glass (out of frame), creating a soft, airy ambiance. Decor is sparse and tasteful. " ++ commonInstructions⟩,
   ⟨"Suburban Sunroom",
    "Task: Integrate the furniture from the user's image, captured from a dynamic three-quarter view, into a bright and airy sunroom in an upscale suburban house. The room is surrounded by a lush green garden visible through large, clean windows (out of frame). The lighting is soft and diffused, filling the space evenly. The floor is a light-colored polished stone tile. The atmosphere is serene and connected to nature. " ++ commonInstructions⟩]

/-- The `dining` scene list of `scenes.modern_suburban` in `getPromptLibraries`. -/
def scenes_modern_suburban_dining : List ScenePrompt :=
  [⟨"Formal Suburban Dining Room",
    "Task: Stage the table from the user's image, shot from a slightly elevated angle, in the formal dining room of an upscale modern suburban house. The room features elegant wainscoting, dark polished hardwood floors, and is illuminated by a large, contemporary chandelier that provides warm, focused light. The scene feels sophisticated and ready for entertaining. " ++ commonInstructions⟩,
   ⟨"Bright Eat-in Kitchen",
    "Task: Place the table from the user's image, from a casual, side-on perspective, within a spacious eat-in kitchen area in a modern suburban house. The background features sleek, handleless white cabinets and a marble kitchen island. Abundant natural light streams in from a large bay window (out of frame), creating a bright and welcoming daytime scene. " ++ commonInstructions⟩]

/-- The `office` scene list of `scenes.modern_suburban` in `getPromptLibraries`. -/
def scenes_modern_suburban_office : List ScenePrompt :=
  [⟨"Peaceful Home Office",
    "Task: Position the office furniture from the user's image, shot from a classic three-quarter view, in a dedicated home office in an upscale suburban house. A large picture window (out of frame) overlooks a serene, landscaped backyard, providing ample, calm natural light. The walls are a calming, muted greige. The space is uncluttered and conducive to focus. " ++ commonInstructions⟩,
   ⟨"Loft Workspace",
    "Task: Integrate the office furniture from the user's image, from a straight-on perspective, into a designated office nook within a large, open-plan loft area of a suburban house. The space is defined by a stylish area rug over polished concrete floors. The lighting is a mix of natural light from a skylight (out of frame) and modern track lighting. " ++ commonInstructions⟩]

/-- The `bedroom` scene list of `scenes.modern_suburban` in `getPromptLibraries`. -/
def scenes_modern_suburban_bedroom : List ScenePrompt :=
  [⟨"Serene Master Bedroom",
    "Task: Place the furniture from the user's image, shot from a straight-on angle, in a spacious master bedroom in a modern suburban house. The atmosphere is calm and serene, with a neutral color palette and plush, light-colored carpeting. Soft, indirect morning light fills the space from a large sliding door leading to a private balcony (out of frame). " ++ commonInstructions⟩,
   ⟨"Chic Guest Bedroom",
    "Task: Integrate the furniture from the user's image, from a casual, three-quarter angle, into a chic and welcoming guest bedroom in a modern suburban house. The room is well-appointed but not cluttered. The lighting is warm and inviting, coming from stylish bedside sconces and a central ceiling fixture, creating a cozy evening ambiance. " ++ commonInstructions⟩]

/-- The `living` scene list of `scenes.scandinavian` in `getPromptLibraries`. -/
def scenes_scandinavian_living : List ScenePrompt :=
  [⟨"Airy Scandinavian Loft",
    "Task: Place the furniture from the user's image, shot from a low angle, into a bright, airy Scandinavian-style loft. The room has whitewashed brick walls, pale Dinesen-style wood floors, and is flooded with soft, natural light from large, black-framed windows (out of frame). The decor is minimal, featuring a few carefully chosen plants and a simple, textured rug. " ++ commonInstructions⟩,
   ⟨"Minimalist Living Space",
    "Task: Integrate the furniture from the user's image, from a three-quarter view, into a minimalist Scandinavian living space. The walls are pure white, the flooring is light ash wood. A single, large abstract art piece hangs on the wall. The lighting is diffuse and even, creating a calm and tranquil mood. " ++ commonInstructions⟩]

/-- The `dining` scene list of `scenes.scandinavian` in `getPromptLibraries`. -/
def scenes_scandinavian_dining : List ScenePrompt :=
  [⟨"Scandinavian Dining Nook",
    "Task: Place the table from the user's image into a cozy Scandinavian dining nook with a built-in light wood bench and simple pendant lighting. " ++ commonInstructions⟩]

/-- The `office` scene list of `scenes.scandinavian` in `getPromptLibraries`. -/
def scenes_scandinavian_office : List ScenePrompt :=
  [⟨"Functional Scandi Office",
    "Task: Stage the office furniture in a functional and clean Scandinavian home office with birch plywood details and excellent natural light. " ++ commonInstructions⟩]

/-- The `bedroom` scene list of `scenes.scandinavian` in `getPromptLibraries`. -/
def scenes_scandinavian_bedroom : List ScenePrompt :=
  [⟨"Restful Scandinavian Bedroom",
    "Task: Place the bed/furniture in a restful Scandinavian bedroom with layered neutral linens, a simple platform bed frame, and soft morning light. " ++ commonInstructions⟩]

/-- The `living` scene list of `scenes.moody_luxurious` in `getPromptLibraries`. -/
def scenes_moody_luxurious_living : List ScenePrompt :=
  [⟨"Elegant Evening Lounge",
    "Task: Place the furniture from the user's image, shot straight-on, into a moody and luxurious lounge. The walls are a deep charcoal grey, floors are dark, polished herringbone wood. The room is illuminated by sophisticated, warm artificial light from a modern brass chandelier and a few spotlights, creating dramatic highlights and shadows. The ambiance is exclusive and elegant. " ++ commonInstructions⟩,
   ⟨"Sophisticated Study",
    "Task: Integrate the furniture from the user's image, from a classic three-quarter angle, into a sophisticated study with floor-to-ceiling dark wood bookshelves. A single, low-hanging pendant light casts a warm, focused glow on the furniture. The mood is intimate, perfect for a high-end catalog. " ++ commonInstructions⟩]

/-- The `dining` scene list of `scenes.moody_luxurious` in `getPromptLibraries`. -/
def scenes_moody_luxurious_dining : List ScenePrompt :=
  [⟨"Dramatic Dining Room",
    "Task: Stage the table in a dramatic, dark-walled dining room, lit by candlelight and a statement chandelier. Textures like velvet and dark marble are present. " ++ commonInstructions⟩]

/-- The `office` scene list of `scenes.moody_luxurious` in `getPromptLibraries`. -/
def scenes_moody_luxurious_office : List ScenePrompt :=
  [⟨"Executive Home Office",
    "Task: Place the office furniture in an executive home office with dark paneled walls, a leather-topped desk, and focused task lighting. The mood is powerful and serious. " ++ commonInstructions⟩]

/-- The `bedroom` scene list of `scenes.moody_luxurious` in `getPromptLibraries`. -/
def scenes_moody_luxurious_bedroom : List ScenePrompt :=
  [⟨"Luxury Hotel-Style Bedroom",
    "Task: Integrate the furniture into a luxurious, hotel-style bedroom with dark, textured wallpaper, plush carpets, and sophisticated accent lighting. " ++ commonInstructions⟩]

/-- The `living` scene list of `scenes.warm_rustic` in `getPromptLibraries`. -/
def scenes_warm_rustic_living : List ScenePrompt :=
  [⟨"Cozy Farmhouse Living Room",
    "Task: Place the furniture from the user's image, from a slightly low angle, into a cozy, modern farmhouse living room. The scene features a whitewashed exposed brick wall and wide-plank, reclaimed wood floors. The room is filled with warm, inviting light from a fireplace (glowing, out of frame). The atmosphere is comfortable and authentic. " ++ commonInstructions⟩,
   ⟨"Rustic Converted Barn",
    "Task: Integrate the furniture from the user's image, from a straight-on perspective, into a spacious converted barn with high ceilings and exposed wooden beams. The floor is polished concrete with a large, neutral-toned jute rug. The lighting is a mix of natural light from large barn doors (out of frame) and warm, industrial-style Edison bulb fixtures. " ++ commonInstructions⟩]

/-- The `dining` scene list of `scenes.warm_rustic` in `getPromptLibraries`. -/
def scenes_warm_rustic_dining : List ScenePrompt :=
  [⟨"Rustic Harvest Kitchen",
    "Task: Stage the table in a rustic kitchen with a large harvest table, terracotta floor tiles, and warm pendant lighting. " ++ commonInstructions⟩]

/-- The `office` scene list of `scenes.warm_rustic` in `getPromptLibraries`. -/
def scenes_warm_rustic_office : List ScenePrompt :=
  [⟨"Comfortable Den Office",
    "Task: Place the office furniture in a comfortable den-style office with wood paneling, a worn leather rug, and warm light from a desk lamp. " ++ commonInstructions⟩]

/-- The `bedroom` scene list of `scenes.warm_rustic` in `getPromptLibraries`. -/
def scenes_warm_rustic_bedroom : List ScenePrompt :=
  [⟨"Cozy Cabin Bedroom",
    "Task: Integrate the furniture into a cozy cabin bedroom with wood-paneled walls, a plush flannel duvet, and the warm glow of a bedside lamp. " ++ commonInstructions⟩]

/-- The `living` scene list of `scenes.industrial_loft` in `getPromptLibraries`. -/
def scenes_industrial_loft_living : List ScenePrompt :=
  [⟨"Urban Industrial Loft",
    "Task: Place the furniture from the user's image, from a three-quarter view, into a spacious industrial loft apartment. The room has high ceilings with exposed ductwork, a weathered red brick accent wall, and polished concrete floors. Light streams in from massive, black-paned factory windows (out of frame). The aesthetic is urban, edgy, and modern. " ++ commonInstructions⟩,
   ⟨"Artist's Loft Studio",
    "Task: Integrate the furniture from the user's image, from a straight-on angle, into a multi-purpose artist's loft. The space is open and features scuffed hardwood floors and large, paint-splattered canvases leaning against a white brick wall. Track lighting on the ceiling illuminates the scene with focused, gallery-style light. The vibe is creative and eclectic. " ++ commonInstructions⟩]

/-- The `dining` scene list of `scenes.industrial_loft` in `getPromptLibraries`. -/
def scenes_industrial_loft_dining : List ScenePrompt :=
  [⟨"Loft Dining Area",
    "Task: Stage the table in an industrial loft dining area with a large, rustic wood and metal table, mismatched metal chairs, and oversized industrial pendant lights overhead. " ++ commonInstructions⟩]

/-- The `office` scene list of `scenes.industrial_loft` in `getPromptLibraries`. -/
def scenes_industrial_loft_office : List ScenePrompt :=
  [⟨"Startup-Style Loft Office",
    "Task: Place the office furniture in a home office corner of an industrial loft. The scene includes an exposed metal pipe shelving unit and a view of a brick wall. Lighting is functional and modern. " ++ commonInstructions⟩]

/-- The `bedroom` scene list of `scenes.industrial_loft` in `getPromptLibraries`. -/
def scenes_industrial_loft_bedroom : List ScenePrompt :=
  [⟨"Mezzanine Loft Bedroom",
    "Task: Integrate the furniture into a bedroom on a mezzanine level in an industrial loft. A low-slung platform bed and black metal railings are visible. The lighting is soft and moody from bedside Edison lamps. " ++ commonInstructions⟩]

/-- The `studioNegativePrompt` appended to each studio prompt. -/
def studioNegativePrompt : String :=
  " The background must be perfectly uniform, with no gradients, shadows, discoloration, or artifacts, especially in the corners."

/-- The three fixed studio prompts of the style-driven `generateFullPhotoshoot`. -/
def studioPrompts : List StudioPrompt :=
  [⟨"Front View",
    "Professional product photography. Place the furniture from the image on a pure white, seamless background (#FFFFFF). The camera is positioned directly in front, at a standard height. The lighting should be soft and even, mimicking a large octabox diffuser to showcase the furniture's form and render its material textures with hyper-realistic detail. Fabric weaves, wood grains, and metal finishes must appear tangible and authentic. Create a subtle, soft ground shadow for realism. The final image must be an ultra-realistic, 8k resolution photograph with sharp focus, perfect for a high-end e-commerce catalog. " ++ studioNegativePrompt⟩,
   ⟨"Three-Quarter View (Right)",
    "Professional product photography. Position the furniture from the image on a pure white, seamless background (#FFFFFF), angled slightly to the right to reveal its depth. The camera is positioned at a 45-degree angle. Use studio lighting with a key light and a fill light to create gentle depth and dimension, highlighting the form and contours. The textures of all materials (wood, fabric, metal) must appear exceptionally authentic and detailed, capturing subtle surface variations and light interplay. Create a soft, diffused ground shadow. The final image must be an ultra-realistic, 8k resolution photograph with sharp focus. " ++ studioNegativePrompt⟩,
   ⟨"Three-Quarter View (Left)",
    "Professional product photography. Position the furniture from the image on a pure white, seamless background (#FFFFFF), angled slightly to the left to showcase its other side. The camera is at a 3/4 angle. The lighting should be bright and clean, emphasizing the product's silhouette and material finish. Render all textures with extreme fidelity; the subtle grain of wood, the delicate weave of fabric, and the smooth sheen of metal must be captured with photorealistic precision. Ensure realistic, soft shadows are cast on the ground. The final image must be an ultra-realistic, 8k resolution photograph with sharp focus, suitable for a product gallery. " ++ studioNegativePrompt⟩]

/-- The two fixed social prompts of the style-driven `generateFullPhotoshoot`. -/
def socialPrompts : List SocialPrompt :=
  [⟨"Instagram Post (Square)",
    "Task: Create a trendy, aspirational Instagram post. Place the furniture from the user's image into a beautifully styled, minimalist interior with a Japandi or Scandinavian aesthetic. The lighting must be bright, soft, and natural. The composition within the 1:1 square format should be impeccable, using negative space effectively. The textures of the furniture must be rendered with exceptional detail, making the material—whether it's rich velvet, rustic wood, or sleek metal—look convincingly real and inviting. The final image needs to be an ultra-realistic photograph that would stop someone scrolling through their feed.",
    AspectRatio.a1x1⟩,
   ⟨"Instagram Story (Vertical)",
    "Task: Generate a captivating 9:16 vertical image for an Instagram Story. Place the furniture from the user's image into a stylish, relatable corner of a modern home. Use a dynamic composition that leads the eye through the frame. The lighting should be soft and flattering, like early morning light. The scene should feel authentic and unstaged. The furniture's material and texture should be clearly visible and appealing, rendered with high fidelity to look great even on a small screen. The final photograph must be hyper-realistic and high-resolution, making the viewer feel like they've stumbled upon a beautiful moment in a real home.",
    AspectRatio.a9x16⟩]

/-- `getPromptLibraries` of the style-driven service: the category switch picks
a room, and the returned record (here a function) indexes scene lists by
creative style.  `sofa`, `chair` and `storage` share the living-room scenes;
unknown categories fall through to the living-room default. -/
def getPromptLibraries (category : String) : CreativeStyle → List ScenePrompt :=
  if category = "sofa" ∨ category = "chair" ∨ category = "storage" then
    fun style => match style with
      | .modern_suburban => scenes_modern_suburban_living
      | .scandinavian => scenes_scandinavian_living
      | .moody_luxurious => scenes_moody_luxurious_living
      | .warm_rustic => scenes_warm_rustic_living
      | .industrial_loft => scenes_industrial_loft_living
  else if category = "table" then
    fun style => match style with
      | .modern_suburban => scenes_modern_suburban_dining
      | .scandinavian => scenes_scandinavian_dining
      | .moody_luxurious => scenes_moody_luxurious_dining
      | .warm_rustic => scenes_warm_rustic_dining
      | .industrial_loft => scenes_industrial_loft_dining
  else if category = "office" then
    fun style => match style with
      | .modern_suburban => scenes_modern_suburban_office
      | .scandinavian => scenes_scandinavian_office
      | .moody_luxurious => scenes_moody_luxurious_office
      | .warm_rustic => scenes_warm_rustic_office
      | .industrial_loft => scenes_industrial_loft_office
  else if category = "bed" then
    fun style => match style with
      | .modern_suburban => scenes_modern_suburban_bedroom
      | .scandinavian => scenes_scandinavian_bedroom
      | .moody_luxurious => scenes_moody_luxurious_bedroom
      | .warm_rustic => scenes_warm_rustic_bedroom
      | .industrial_loft => scenes_industrial_loft_bedroom
  else
    fun style => match style with
      | .modern_suburban => scenes_modern_suburban_living
      | .scandinavian => scenes_scandinavian_living
      | .moody_luxurious => scenes_moody_luxurious_living
      | .warm_rustic => scenes_warm_rustic_living
      | .industrial_loft => scenes_industrial_loft_living

/-- One entry of the orchestrator's `processQueue`: a
`{ prompt, title, category, ar }` tuple. -/
structure PhotoshootTask where
  prompt : String
  title : String
  category : ImageCategory
  ar : AspectRatio
deriving DecidableEq

/-- The `processQueue` of `generateFullPhotoshoot`: all studio tuples, then
all lifestyle tuples, then all social tuples, in declaration order. -/
def processQueue (studio : List StudioPrompt) (lifestyle : List ScenePrompt)
    (social : List SocialPrompt) : List PhotoshootTask :=
  studio.map (fun p => ⟨p.prompt, p.angle, ImageCategory.studio, AspectRatio.a16x9⟩)
    ++ lifestyle.map (fun p => ⟨p.prompt, p.setting, ImageCategory.lifestyle, AspectRatio.a16x9⟩)
    ++ social.map (fun p => ⟨p.prompt, p.format, ImageCategory.social, p.aspectRatio⟩)

/-- The `for` loop over `processQueue`: each iteration calls
`editImageWithGemini(imageFile, task.prompt)` once (the oracle `gen`) and
pushes one `GeneratedImage`.  Returns the pushed images together with the
trace of prompts passed to the image-generation step, both in loop order.
`uuid` supplies `crypto.randomUUID()` values by loop index. -/
def photoshootLoop (gen : String → String) (uuid : Nat → String) :
    Nat → List PhotoshootTask → List GeneratedImage × List String
  | _, [] => ([], [])
  | i, task :: rest =>
      let title := if task.title = "" then "Image" else task.title
      let base64 := gen task.prompt
      let tail := photoshootLoop gen uuid (i + 1) rest
      (⟨uuid i, title, "A professionally generated image for your product.", base64,
        task.prompt, task.ar, task.category⟩ :: tail.1,
       task.prompt :: tail.2)

/-- The style-driven `generateFullPhotoshoot` after classification and detail
generation (both external calls, supplied as `furnitureCategory` and
`details`): builds the process queue for the category and style, runs the
generation loop, and assembles the flat content record.  The second component
is the trace of image-generation calls. -/
def generateFullPhotoshoot (gen : String → String) (uuid : Nat → String)
    (furnitureCategory : String) (style : CreativeStyle) (details : ProductDetails) :
    GeneratedContentFlat × List String :=
  let queue := processQueue studioPrompts (getPromptLibraries furnitureCategory style) socialPrompts
  let run := photoshootLoop gen uuid 0 queue
  ({ details := details, images := run.1, furnitureCategory := furnitureCategory }, run.2)

theorem photoshootLoop_trace (gen : String → String) (uuid : Nat → String) :
    ∀ (i : Nat) (queue : List PhotoshootTask),
      (photoshootLoop gen uuid i queue).2 = queue.map (fun t => t.prompt) := by
  intro i queue
  induction queue generalizing i with
  | nil => rfl
  | cons t rest ih => simp [photoshootLoop, ih]

theorem photoshootLoop_images (gen : String → String) (uuid : Nat → String) :
    ∀ (i : Nat) (queue : List PhotoshootTask),
      (photoshootLoop gen uuid i queue).1.map (fun img => (img.sourcePrompt, img.category)) =
        queue.map (fun t => (t.prompt, t.category)) := by
  intro i queue
  induction queue generalizing i with
  | nil => rfl
  | cons t rest ih => simp [photoshootLoop, ih]

/-! ## Spec-sheet pipeline (`src/unnamed/part_000`, `generateVariationsFromSpecSheet`
with user instructions, lines 962-1101 of the concatenated services file) -/

/-- The `attributes` object of a parsed variation; the response schema
requires exactly these four string keys. -/
structure VariationAttributes where
  Size : String
  Dimensions : String
  Color : String
  Material : String
deriving DecidableEq

/-- The `ParsedSpecSheet` interface of the spec-sheet service. -/
structure ParsedSpecSheet where
  productName : String
  modelNo : String
  variations : List VariationAttributes
deriving DecidableEq

/-- The `preservationInstruction` constant of the spec-sheet service. -/
def preservationInstruction : String :=
  "**CRITICAL INSTRUCTION: You MUST preserve the exact design, shape, proportions, and materials of the furniture from the source images. DO NOT add, remove, or alter any part of the furniture's design. Your ONLY task is to place this exact piece of furniture into the described scene or modify the scene around it. If the source image is low resolution, upscale it while strictly maintaining the original textures and details. DO NOT include any text, dimensions, measurements, arrows, lines, or annotations in the image. The image must be a clean, professional photograph without any graphic overlays or artifacts.**"

/-- The `cleanImageInstruction` constant of the spec-sheet service. -/
def cleanImageInstruction : String :=
  "The final image must be a single, full-frame, clean photograph. DO NOT include any text, numbers, measurements, arrows, diagrams, watermarks, or overlay graphics. DO NOT produce a collage, split screen, grid, or multi-view composition. DO NOT include black lines or dividers. DO NOT include vignetting, grey corners, or lighting artifacts in the background. The lighting should be natural and soft, avoiding harsh artificial highlights."

/-- The `photographyStyle` constant of `generateVariationsFromSpecSheet`. -/
def photographyStyle : String :=
  "Award-winning product photography, shot on 85mm lens, f/8 aperture for sharp focus with subtle depth of field. Soft, diffused natural studio lighting. Ultra-high resolution, 8k, highly detailed textures. Super natural, tangible, and organic look. No CGI gloss, no artifacts."

/-- The front-view studio prompt (always generated) of `generateVariationsFromSpecSheet`. -/
def studioPromptFront (primaryProductName : String) (variation : VariationAttributes) (instructionsText : String) : String :=
  "Using the provided images as a visual guide, create a professional Front View product photo of the "
    ++ primaryProductName
    ++ ". Variation details: Size is "
    ++ variation.Size
    ++ ", color is "
    ++ variation.Color
    ++ ". Place it on a completely flat, pure white background (Hex #FFFFFF). The background must be evenly lit from edge-to-edge with NO grey shadings, NO shadows in the top corners, NO vignetting, and NO horizon line. It should be a perfect cutout-style white background. "
    ++ photographyStyle
    ++ " "
    ++ instructionsText
    ++ " "
    ++ preservationInstruction
    ++ " "
    ++ cleanImageInstruction

/-- The 3/4-view studio prompt (single-variation case only) of `generateVariationsFromSpecSheet`. -/
def studioPromptAngle (primaryProductName : String) (variation : VariationAttributes) (instructionsText : String) : String :=
  "Using the provided images as a visual guide, create a professional 3/4 Angle View product photo of the "
    ++ primaryProductName
    ++ ". Show the depth and side details. Variation details: Size is "
    ++ variation.Size
    ++ ", color is "
    ++ variation.Color
    ++ ". Place it on a completely flat, pure white background (Hex #FFFFFF). The background must be evenly lit from edge-to-edge with NO grey shadings, NO shadows in the top corners, NO vignetting, and NO horizon line. It should be a perfect cutout-style white background. "
    ++ photographyStyle
    ++ " "
    ++ instructionsText
    ++ " "
    ++ preservationInstruction
    ++ " "
    ++ cleanImageInstruction

/-- The first lifestyle prompt of the single-variation case of `generateVariationsFromSpecSheet`. -/
def lifestylePrompt1 (primaryProductName : String) (instructionsText : String) : String :=
  "Using the provided images as a visual guide, create a super natural, high-end lifestyle image of the "
    ++ primaryProductName
    ++ ". Place it in a beautifully styled, minimalist living room with a Japandi aesthetic. Soft, organic natural daylight entering from a window. The room should feel lived-in but tidy. "
    ++ photographyStyle
    ++ " "
    ++ instructionsText
    ++ " "
    ++ preservationInstruction
    ++ " "
    ++ cleanImageInstruction

/-- The second lifestyle prompt of the single-variation case of `generateVariationsFromSpecSheet`. -/
def lifestylePrompt2 (primaryProductName : String) (instructionsText : String) : String :=
  "Using the provided images as a visual guide, create a cozy, atmospheric lifestyle image of the "
    ++ primaryProductName
    ++ ". Focus on the texture of the materials. Place it in a warm, inviting corner with soft evening light and organic decor elements like a plant or a rug. "
    ++ photographyStyle
    ++ " "
    ++ instructionsText
    ++ " "
    ++ preservationInstruction
    ++ " "
    ++ cleanImageInstruction

/-- The third lifestyle prompt of the single-variation case of `generateVariationsFromSpecSheet`. -/
def lifestylePrompt3 (primaryProductName : String) (instructionsText : String) : String :=
  "Using the provided images as a visual guide, create a high-end editorial style image of the "
    ++ primaryProductName
    ++ ". Place it in a spacious, architectural concrete loft or gallery space. Dramatic but soft shadows, strong composition, magazine quality. "
    ++ photographyStyle
    ++ " "
    ++ instructionsText
    ++ " "
    ++ preservationInstruction
    ++ " "
    ++ cleanImageInstruction

/-- The lifestyle prompt of the multi-variation case of `generateVariationsFromSpecSheet`. -/
def lifestylePrompt (primaryProductName : String) (variation : VariationAttributes) (instructionsText : String) : String :=
  "Using the provided images as a visual guide, create a trendy, aspirational lifestyle image of the "
    ++ primaryProductName
    ++ ". Variation details: Size is "
    ++ variation.Size
    ++ ", color is "
    ++ variation.Color
    ++ ". Place it in a beautifully styled, minimalist interior with a Japandi or Scandinavian aesthetic. The lighting must be bright, soft, and natural. "
    ++ photographyStyle
    ++ " "
    ++ instructionsText
    ++ " "
    ++ preservationInstruction
    ++ " "
    ++ cleanImageInstruction

/-- The attribute record in object-key insertion order, as the
`Record<string, string>` stored in `VariationResult.variation`. -/
def VariationAttributes.toPairs (v : VariationAttributes) : List (String × String) :=
  [("Size", v.Size), ("Dimensions", v.Dimensions), ("Color", v.Color), ("Material", v.Material)]

/-- The image set generated for one variation by
`generateVariationsFromSpecSheet`: the front studio shot always; when exactly
one variation was parsed, additionally the 3/4 studio shot and three distinct
lifestyle scenes; otherwise a single lifestyle scene.  `gen` is the
`regenerateImageFromSource` oracle (prompt to image payload), `uuid` supplies
`crypto.randomUUID()` values by call slot. -/
def variationImagesFor (gen : String → String) (uuid : Nat → String) (totalVariations : Nat)
    (primaryProductName instructionsText : String) (variation : VariationAttributes) :
    List GeneratedImage :=
  [⟨uuid 0, "Studio Shot (Front View)", "High quality front view on white background.",
    gen (studioPromptFront primaryProductName variation instructionsText),
    studioPromptFront primaryProductName variation instructionsText,
    AspectRatio.a16x9, ImageCategory.studio⟩]
  ++ (if totalVariations = 1 then
        [⟨uuid 1, "Studio Shot (3/4 View)", "High quality 3/4 angle view on white background.",
          gen (studioPromptAngle primaryProductName variation instructionsText),
          studioPromptAngle primaryProductName variation instructionsText,
          AspectRatio.a16x9, ImageCategory.studio⟩]
      else [])
  ++ (if totalVariations = 1 then
        [⟨uuid 2, "Lifestyle: Living Space", "Natural minimalist living room context.",
          gen (lifestylePrompt1 primaryProductName instructionsText),
          lifestylePrompt1 primaryProductName instructionsText,
          AspectRatio.a16x9, ImageCategory.lifestyle⟩,
         ⟨uuid 3, "Lifestyle: Atmospheric/Cozy", "Warm lighting with focus on texture and atmosphere.",
          gen (lifestylePrompt2 primaryProductName instructionsText),
          lifestylePrompt2 primaryProductName instructionsText,
          AspectRatio.a16x9, ImageCategory.lifestyle⟩,
         ⟨uuid 4, "Lifestyle: Architectural Loft", "High-end editorial style in a loft.",
          gen (lifestylePrompt3 primaryProductName instructionsText),
          lifestylePrompt3 primaryProductName instructionsText,
          AspectRatio.a16x9, ImageCategory.lifestyle⟩]
      else
        [⟨uuid 2, "Minimalist Lifestyle Scene", "Product shown in a stylish, modern home.",
          gen (lifestylePrompt primaryProductName variation instructionsText),
          lifestylePrompt primaryProductName variation instructionsText,
          AspectRatio.a16x9, ImageCategory.lifestyle⟩])

/-- `generateVariationsFromSpecSheet` (the variant taking `userInstructions`)
after `parseSpecSheet` and `generateBaseProductDetails` (external calls,
supplied as `parsed` and `baseDetails`): one `VariationResult` per parsed
variation, with the image set of `variationImagesFor`.  `uuid i k` supplies
the UUID for call slot `k` of variation `i` (slot 5 is the result group id);
progress-message callbacks are pure side effects and are not modelled. -/
def generateVariationsFromSpecSheet (gen : String → String) (uuid : Nat → Nat → String)
    (parsed : ParsedSpecSheet) (baseDetails : ProductDetails) (userInstructions : String) :
    GeneratedContent :=
  let totalVariations := parsed.variations.length
  let instructionsText :=
    if userInstructions = "" then ""
    else "User specific instructions: \"" ++ userInstructions ++ "\"."
  let primaryProductName :=
    match baseDetails.names with
    | [] => parsed.productName
    | n :: _ => if n = "" then parsed.productName else n
  { baseDetails := baseDetails,
    variationResults := parsed.variations.enum.map (fun p =>
      { id := uuid p.1 5,
        variation := p.2.toPairs,
        images := variationImagesFor gen (uuid p.1) totalVariations primaryProductName
          instructionsText p.2 }),
    furnitureCategory := "furniture" }

theorem enumFrom_map_snd {α β : Type} (g : α → β) :
    ∀ (n : Nat) (l : List α), (List.enumFrom n l).map (fun p => g p.2) = l.map g := by
  intro n l
  induction l generalizing n with
  | nil => rfl
  | cons a l ih => simp [List.enumFrom, ih]

/-! ## Application state and handlers (`src/unnamed/part_000` App, `src/App.tsx`) -/

/-- The regenerate update of the flat App (services-style variant): only the
matching image's `base64` is replaced. -/
def updateImagesBase64 (images : List GeneratedImage) (targetId newBase64 : String) :
    List GeneratedImage :=
  images.map (fun img => if img.id = targetId then { img with base64 := newBase64 } else img)

/-- The edit update of both Apps: the matching image's `base64` and
`sourcePrompt` are replaced. -/
def updateImagesEdit (images : List GeneratedImage) (targetId newBase64 newPrompt : String) :
    List GeneratedImage :=
  images.map (fun img =>
    if img.id = targetId then { img with base64 := newBase64, sourcePrompt := newPrompt } else img)

/-- The nested update of `src/App.tsx`: only the matching variation's image
list is rewritten, via `updateImagesEdit`. -/
def updateVariationResults (results : List VariationResult)
    (variationId targetId newBase64 newPrompt : String) : List VariationResult :=
  results.map (fun result =>
    if result.id = variationId then
      { result with images := updateImagesEdit result.images targetId newBase64 newPrompt }
    else result)

/-- The component state of the flat App (`src/unnamed/part_000`, lines 10-17).
Uploaded files are opaque names. -/
structure AppStateFlat where
  uploadedFiles : List String
  generatedContent : Option GeneratedContentFlat
  isGenerating : Bool
  isUpdatingDetails : Bool
  generatingMessage : String
  editingImageId : Option String
  error : Option String
  creativeStyle : CreativeStyle
deriving DecidableEq

/-- The `useState` initial values of the flat App. -/
def initialAppStateFlat : AppStateFlat :=
  ⟨[], none, false, false, "", none, none, CreativeStyle.modern_suburban⟩

/-- The upload screen is rendered exactly when `generatedContent` is null
(the `!generatedContent ?` branch of the App's JSX). -/
def showsUploadScreenFlat (st : AppStateFlat) : Bool :=
  st.generatedContent.isNone

/-- `handleRegenerateImage` of the flat App, with the awaited
`editImageWithGemini` call supplied as `callResult`.  The guard returns early
when no content or no uploaded file exists; on success only the matching
image's payload is replaced; on failure only the error banner is set. -/
def handleRegenerateImageFlat (st : AppStateFlat) (imageToRegen : GeneratedImage)
    (callResult : Except String String) : AppStateFlat :=
  match st.generatedContent with
  | none => st
  | some content =>
    if st.uploadedFiles.isEmpty then st
    else
      match callResult with
      | Except.ok newBase64 =>
          { st with
            error := none,
            editingImageId := none,
            generatedContent :=
              some { content with images := updateImagesBase64 content.images imageToRegen.id newBase64 } }
      | Except.error msg =>
          { st with
            editingImageId := none,
            error := some ("Regeneration failed for \"" ++ imageToRegen.title ++ "\": " ++ msg) }

/-- `handleEditImage` of the flat App, with the awaited call supplied as
`callResult`. -/
def handleEditImageFlat (st : AppStateFlat) (imageId prompt : String)
    (callResult : Except String String) : AppStateFlat :=
  match st.generatedContent with
  | none => st
  | some content =>
    match content.images.find? (fun img => img.id = imageId) with
    | none => st
    | some imageToEdit =>
      match callResult with
      | Except.ok newBase64 =>
          { st with
            error := none,
            editingImageId := none,
            generatedContent :=
              some { content with images := updateImagesEdit content.images imageId newBase64 prompt } }
      | Except.error msg =>
          { st with
            editingImageId := none,
            error := some ("Image edit failed for \"" ++ imageToEdit.title ++ "\": " ++ msg) }

/-- `handleReset` of the flat App: clears uploads, content and error. -/
def handleResetFlat (st : AppStateFlat) : AppStateFlat :=
  { st with uploadedFiles := [], generatedContent := none, error := none }

/-- The component state of the spec-sheet App (`src/App.tsx`, lines 10-16). -/
structure AppStateVar where
  sourceImages : List String
  userInstructions : String
  generatedContent : Option GeneratedContent
  isGenerating : Bool
  generatingMessage : String
  editingImageId : Option String
  error : Option String
deriving DecidableEq

/-- The `useState` initial values of the spec-sheet App. -/
def initialAppStateVar : AppStateVar :=
  ⟨[], "", none, false, "", none, none⟩

/-- The upload screen of the spec-sheet App is rendered exactly when
`generatedContent` is null. -/
def showsUploadScreenVar (st : AppStateVar) : Bool :=
  st.generatedContent.isNone

/-- `handleRegenerateImage` of `src/App.tsx`: looks up the variation (a
missing one surfaces as a caught error), augments the stored prompt with a
trimmed non-empty extra instruction, and on success rewrites only the
matching variation's matching image. -/
def handleRegenerateImageVar (st : AppStateVar) (variationId : String)
    (imageToRegen : GeneratedImage) (newPrompt : Option String)
    (callResult : Except String String) : AppStateVar :=
  match st.generatedContent with
  | none => st
  | some content =>
    if st.sourceImages.isEmpty then st
    else
      match content.variationResults.find? (fun v => v.id = variationId) with
      | none =>
          { st with
            editingImageId := none,
            error := some ("Regeneration failed for \"" ++ imageToRegen.title ++
              "\": Could not find the variation to regenerate.") }
      | some _ =>
        let finalPrompt :=
          match newPrompt with
          | some p =>
              if p.trim = "" then imageToRegen.sourcePrompt
              else imageToRegen.sourcePrompt ++
                ". Additional instruction for this regeneration: \"" ++ p ++ "\""
          | none => imageToRegen.sourcePrompt
        match callResult with
        | Except.ok newBase64 =>
            { st with
              error := none,
              editingImageId := none,
              generatedContent :=
                some { content with
                  variationResults :=
                    updateVariationResults content.variationResults variationId
                      imageToRegen.id newBase64 finalPrompt } }
        | Except.error msg =>
            { st with
              editingImageId := none,
              error := some ("Regeneration failed for \"" ++ imageToRegen.title ++ "\": " ++ msg) }

/-- `handleEditImage` of `src/App.tsx`, with the awaited call supplied as
`callResult`. -/
def handleEditImageVar (st : AppStateVar) (variationId imageId prompt : String)
    (callResult : Except String String) : AppStateVar :=
  match st.generatedContent with
  | none => st
  | some content =>
    match (content.variationResults.find? (fun vr => vr.id = variationId)).bind
        (fun vr => vr.images.find? (fun img => img.id = imageId)) with
    | none => st
    | some imageToEdit =>
      match callResult with
      | Except.ok newBase64 =>
          { st with
            error := none,
            editingImageId := none,
            generatedContent :=
              some { content with
                variationResults :=
                  updateVariationResults content.variationResults variationId imageId
                    newBase64 prompt } }
      | Except.error msg =>
          { st with
            editingImageId := none,
            error := some ("Image edit failed for \"" ++ imageToEdit.title ++ "\": " ++ msg) }

/-- `handleReset` of `src/App.tsx`: clears the source images, the user
instructions, the generated content and the error. -/
def handleResetVar (st : AppStateVar) : AppStateVar :=
  { st with sourceImages := [], userInstructions := "", generatedContent := none, error := none }

/-! ## Classifier fallback and module initialization (`src/unnamed/part_000`,
`src/unnamed/part_001`) -/

/-- The parsed classification response (`{ category }` per the response
schema). -/
structure FurnitureAnalysis where
  category : String
deriving DecidableEq

/-- `analyzeFurnitureType` at outcome level: the whole call-and-parse is
wrapped in `try`, so any failure yields the default label `'sofa'` instead of
propagating. -/
def analyzeFurnitureType (outcome : Except String FurnitureAnalysis) : String :=
  match outcome with
  | Except.ok result => result.category
  | Except.error _ => "sofa"

/-- The error thrown at module load of the eager service variants when the
credential is missing. -/
def apiKeyErrorMessage : String :=
  "API_KEY environment variable not set. Please configure it before running the application."

/-- JavaScript truthiness of an optional environment string: `undefined` and
`''` are falsy. -/
def jsTruthyString : Option String → Bool
  | none => false
  | some s => s != ""

/-- Module load of the two eager service variants (`src/unnamed/part_000`
lines 194-200 and 400-406): `if (!API_KEY) throw new Error(...)` runs when
the module is first loaded. -/
def geminiServiceModuleInitEager (apiKey : Option String) : Except String Unit :=
  if jsTruthyString apiKey then Except.ok () else Except.error apiKeyErrorMessage

/-- Module load of the lazy service variant (`src/unnamed/part_001` lines
5-6, likewise the third section of `src/unnamed/part_000`): the top level
only defines `getAiClient` and constants, so loading never consults the
credential and never throws; the client is constructed on first use. -/
def geminiServiceModuleInitLazy (_apiKey : Option String) : Except String Unit :=
  Except.ok ()

/-! ## Claim theorems -/

/-- C1: for every furniture category and creative style, the full-photoshoot
orchestrator invokes the image-generation step exactly once per
(prompt, title, category) tuple of its process queue, in the declared order
(all studio tuples, then all lifestyle tuples, then all social tuples), and
the image list has one `GeneratedImage` per tuple in that order, carrying the
tuple's prompt as `sourcePrompt` and the tuple's category.  The call trace is
the second component of `generateFullPhotoshoot`. -/
theorem generateFullPhotoshoot_one_call_per_tuple :
    ∀ (gen : String → String) (uuid : Nat → String) (furnitureCategory : String)
      (style : CreativeStyle) (details : ProductDetails),
      (generateFullPhotoshoot gen uuid furnitureCategory style details).2 =
          studioPrompts.map (fun p => p.prompt)
            ++ (getPromptLibraries furnitureCategory style).map (fun p => p.prompt)
            ++ socialPrompts.map (fun p => p.prompt)
        ∧ (generateFullPhotoshoot gen uuid furnitureCategory style details).1.images.map
              (fun img => (img.sourcePrompt, img.category)) =
            studioPrompts.map (fun p => (p.prompt, ImageCategory.studio))
              ++ (getPromptLibraries furnitureCategory style).map
                  (fun p => (p.prompt, ImageCategory.lifestyle))
              ++ socialPrompts.map (fun p => (p.prompt, ImageCategory.social)) := by
  intro gen uuid furnitureCategory style details
  constructor
  · show (photoshootLoop gen uuid 0 _).2 = _
    rw [photoshootLoop_trace]
    simp only [processQueue, List.map_append, List.map_map]
    rfl
  · show (photoshootLoop gen uuid 0 _).1.map _ = _
    rw [photoshootLoop_images]
    simp only [processQueue, List.map_append, List.map_map]
    rfl

/-- C7: resetting the session empties the uploaded-file list, clears the
generated content and the error, and returns the application to the initial
upload screen; this holds for the flat App's `handleReset` and for the
spec-sheet App's `handleReset` (which additionally clears the user
instructions). -/
theorem handleReset_returns_to_upload_state :
    ∀ (st : AppStateFlat) (sv : AppStateVar),
      (handleResetFlat st).uploadedFiles = []
        ∧ (handleResetFlat st).generatedContent = none
        ∧ (handleResetFlat st).error = none
        ∧ showsUploadScreenFlat (handleResetFlat st) = true
        ∧ (handleResetVar sv).sourceImages = []
        ∧ (handleResetVar sv).userInstructions = ""
        ∧ (handleResetVar sv).generatedContent = none
        ∧ (handleResetVar sv).error = none
        ∧ showsUploadScreenVar (handleResetVar sv) = true := by
  intro st sv
  refine ⟨rfl, rfl, rfl, rfl, rfl, rfl, rfl, rfl, rfl⟩

/-- C8: any failure of the classification call (network error, missing or
unparsable response) is caught and yields the default label `'sofa'`; a
successful call yields the parsed category.  The classifier is total, so the
photoshoot pipeline never fails because of classification alone. -/
theorem analyzeFurnitureType_defaults_to_sofa :
    (∀ e : String, analyzeFurnitureType (Except.error e) = "sofa")
      ∧ (∀ r : FurnitureAnalysis, analyzeFurnitureType (Except.ok r) = r.category) :=
  ⟨fun _ => rfl, fun _ => rfl⟩

/-- C3: a CSV field is enclosed in double quotes iff it contains a comma, a
double quote or a newline; inside a quoted field every double quote is
doubled; any other field is unchanged byte-for-byte; fields are joined with
`','` and rows with `'\n'`.  The `escape` helper of `generateShopifyCSV`
agrees with `toCSVString`'s field serializer. -/
theorem toCSVString_quoting :
    (∀ s : String, ¬ (∃ c ∈ s.data, c = ',' ∨ c = '"' ∨ c = '\n') → csvField s = s)
      ∧ (∀ s : String, (∃ c ∈ s.data, c = ',' ∨ c = '"' ∨ c = '\n') →
          (csvField s).data = '"' :: (doubledCharsSpec s.data ++ ['"']))
      ∧ (∀ rows : List (List String),
          toCSVString rows =
            String.intercalate "\n" (rows.map (fun row => String.intercalate "," (row.map csvField))))
      ∧ (∀ s : String, shopifyCsvEscape s = csvField s) := by
  refine ⟨?_, ?_, fun _ => rfl, ?_⟩
  · intro s h
    have hq : csvNeedsQuoting s = false := by
      rcases Bool.eq_false_or_eq_true (csvNeedsQuoting s) with ht | hf
      · exact absurd ((csvNeedsQuoting_iff s).mp ht) h
      · exact hf
    simp [csvField, hq]
  · intro s h
    have hq : csvNeedsQuoting s = true := (csvNeedsQuoting_iff s).mpr h
    simp [csvField, hq, String.data_append, csvEscapeQuotes_eq_spec]
  · intro s
    by_cases h0 : s = ""
    · subst h0
      rfl
    · by_cases hq : csvNeedsQuoting s
      · simp only [shopifyCsvEscape, csvField, h0, if_false]
        rw [if_pos (by simpa [csvNeedsQuoting] using hq), if_pos hq]
      · simp only [shopifyCsvEscape, csvField, h0, if_false]
        rw [if_neg (by simpa [csvNeedsQuoting] using hq), if_neg hq]

/-- Witness for C3 at concrete fields: `ab` stays unchanged, `a"b` is quoted
with its quote doubled. -/
theorem toCSVString_quoting_witness :
    csvField "ab" = "ab"
      ∧ (csvField "a\"b").data = '"' :: (doubledCharsSpec "a\"b".data ++ ['"']) :=
  ⟨toCSVString_quoting.1 "ab" (by decide),
   toCSVString_quoting.2.1 "a\"b" (by decide)⟩

/-- Demo images shared by the concrete witnesses below. -/
def demoImageA : GeneratedImage :=
  ⟨"id-a", "Front View", "desc a", "payloadA", "prompt a", AspectRatio.a16x9, ImageCategory.studio⟩

/-- Second demo image, with a different id and category. -/
def demoImageB : GeneratedImage :=
  ⟨"id-b", "Cozy Den", "desc b", "payloadB", "prompt b", AspectRatio.a16x9, ImageCategory.lifestyle⟩

/-- Third demo image, social category. -/
def demoImageC : GeneratedImage :=
  ⟨"id-c", "Instagram Post (Square)", "desc c", "payloadC", "prompt c", AspectRatio.a1x1,
   ImageCategory.social⟩

/-- C2: a successful edit or regenerate rewrites only the targeted image: at
every position whose image has a different id the list is unchanged, and at
the targeted id only `base64` (regenerate) or `base64` and `sourcePrompt`
(edit) are replaced, preserving id, title, description, aspect ratio and
category; in the spec-sheet App the same holds one level up, every other
variation group being left unchanged. -/
theorem image_update_isolation :
    (∀ (images : List GeneratedImage) (targetId newBase64 newPrompt : String) (j : Nat)
       (img : GeneratedImage), images[j]? = some img →
        (img.id ≠ targetId →
            (updateImagesEdit images targetId newBase64 newPrompt)[j]? = some img
            ∧ (updateImagesBase64 images targetId newBase64)[j]? = some img)
        ∧ (img.id = targetId →
            (updateImagesEdit images targetId newBase64 newPrompt)[j]? =
              some { img with base64 := newBase64, sourcePrompt := newPrompt }
            ∧ (updateImagesBase64 images targetId newBase64)[j]? =
              some { img with base64 := newBase64 }))
    ∧ (∀ (results : List VariationResult) (variationId targetId newBase64 newPrompt : String)
        (k : Nat) (vr : VariationResult), results[k]? = some vr →
        (vr.id ≠ variationId →
            (updateVariationResults results variationId targetId newBase64 newPrompt)[k]? = some vr)
        ∧ (vr.id = variationId →
            (updateVariationResults results variationId targetId newBase64 newPrompt)[k]? =
              some { vr with images := updateImagesEdit vr.images targetId newBase64 newPrompt })) := by
  constructor
  · intro images targetId newBase64 newPrompt j img hj
    constructor
    · intro hne
      constructor
      · simp [updateImagesEdit, List.getElem?_map, hj, hne]
      · simp [updateImagesBase64, List.getElem?_map, hj, hne]
    · intro heq
      constructor
      · simp [updateImagesEdit, List.getElem?_map, hj, heq]
      · simp [updateImagesBase64, List.getElem?_map, hj, heq]
  · intro results variationId targetId newBase64 newPrompt k vr hk
    constructor
    · intro hne
      simp [updateVariationResults, List.getElem?_map, hk, hne]
    · intro heq
      simp [updateVariationResults, List.getElem?_map, hk, heq]

/-- Witness for C2 on a concrete two-image list and a concrete two-group
variation list: editing `id-a` leaves the image at position 1 untouched and
rewrites only payload and prompt at position 0. -/
theorem image_update_isolation_witness :
    ((updateImagesEdit [demoImageA, demoImageB] "id-a" "newPayload" "newPrompt")[1]? =
        some demoImageB
      ∧ (updateImagesBase64 [demoImageA, demoImageB] "id-a" "newPayload")[1]? = some demoImageB)
    ∧ ((updateImagesEdit [demoImageA, demoImageB] "id-a" "newPayload" "newPrompt")[0]? =
        some { demoImageA with base64 := "newPayload", sourcePrompt := "newPrompt" }
      ∧ (updateImagesBase64 [demoImageA, demoImageB] "id-a" "newPayload")[0]? =
        some { demoImageA with base64 := "newPayload" })
    ∧ (updateVariationResults [⟨"vr-1", [], [demoImageA]⟩, ⟨"vr-2", [], [demoImageB]⟩]
          "vr-1" "id-a" "newPayload" "newPrompt")[1]? = some ⟨"vr-2", [], [demoImageB]⟩ :=
  ⟨(image_update_isolation.1 [demoImageA, demoImageB] "id-a" "newPayload" "newPrompt" 1
      demoImageB rfl).1 (by decide),
   (image_update_isolation.1 [demoImageA, demoImageB] "id-a" "newPayload" "newPrompt" 0
      demoImageA rfl).2 rfl,
   (image_update_isolation.2 [⟨"vr-1", [], [demoImageA]⟩, ⟨"vr-2", [], [demoImageB]⟩]
      "vr-1" "id-a" "newPayload" "newPrompt" 1 ⟨"vr-2", [], [demoImageB]⟩ rfl).1 (by decide)⟩

/-- C5: when the external call of an edit or regenerate fails, the whole
result set (generated content, including every image's payload, prompt and
metadata, and the product details inside it) and the uploaded files are
exactly as before, and — whenever the handler got past its guards — the
failure surfaces as the user-visible error banner text. -/
theorem edit_failure_leaves_results_untouched :
    (∀ (st : AppStateFlat) (img : GeneratedImage) (e : String),
        (handleRegenerateImageFlat st img (Except.error e)).generatedContent =
            st.generatedContent
          ∧ (handleRegenerateImageFlat st img (Except.error e)).uploadedFiles =
            st.uploadedFiles)
    ∧ (∀ (st : AppStateFlat) (imageId prompt e : String),
        (handleEditImageFlat st imageId prompt (Except.error e)).generatedContent =
            st.generatedContent
          ∧ (handleEditImageFlat st imageId prompt (Except.error e)).uploadedFiles =
            st.uploadedFiles)
    ∧ (∀ (st : AppStateVar) (variationId : String) (img : GeneratedImage)
        (newPrompt : Option String) (e : String),
        (handleRegenerateImageVar st variationId img newPrompt (Except.error e)).generatedContent =
            st.generatedContent
          ∧ (handleRegenerateImageVar st variationId img newPrompt (Except.error e)).sourceImages =
            st.sourceImages)
    ∧ (∀ (st : AppStateVar) (variationId imageId prompt e : String),
        (handleEditImageVar st variationId imageId prompt (Except.error e)).generatedContent =
            st.generatedContent
          ∧ (handleEditImageVar st variationId imageId prompt (Except.error e)).sourceImages =
            st.sourceImages)
    ∧ (∀ (st : AppStateFlat) (img : GeneratedImage) (e : String),
        st.generatedContent ≠ none → st.uploadedFiles ≠ [] →
          (handleRegenerateImageFlat st img (Except.error e)).error =
            some ("Regeneration failed for \"" ++ img.title ++ "\": " ++ e)) := by
  refine ⟨?_, ?_, ?_, ?_, ?_⟩
  · intro st img e
    unfold handleRegenerateImageFlat
    cases hc : st.generatedContent with
    | none => simp [hc]
    | some content =>
        dsimp only
        by_cases hu : st.uploadedFiles.isEmpty = true
        · rw [if_pos hu]
          simp [hc]
        · rw [if_neg hu]
          exact ⟨rfl, rfl⟩
  · intro st imageId prompt e
    unfold handleEditImageFlat
    cases hc : st.generatedContent with
    | none => simp [hc]
    | some content =>
        dsimp only
        split <;> simp [hc]
  · intro st variationId img newPrompt e
    unfold handleRegenerateImageVar
    cases hc : st.generatedContent with
    | none => simp [hc]
    | some content =>
        dsimp only
        by_cases hs : st.sourceImages.isEmpty = true
        · rw [if_pos hs]
          simp [hc]
        · rw [if_neg hs]
          split <;> simp
  · intro st variationId imageId prompt e
    unfold handleEditImageVar
    cases hc : st.generatedContent with
    | none => simp [hc]
    | some content =>
        dsimp only
        split <;> simp [hc]
  · intro st img e hc hf
    unfold handleRegenerateImageFlat
    cases hco : st.generatedContent with
    | none => exact absurd hco hc
    | some content =>
        have hne : ¬ st.uploadedFiles.isEmpty = true := by
          cases hu : st.uploadedFiles with
          | nil => exact absurd hu hf
          | cons a l => simp [hu]
        dsimp only
        rw [if_neg hne]

/-- Demo flat App state used by concrete witnesses. -/
def demoAppStateFlat : AppStateFlat :=
  { uploadedFiles := ["sofa.jpg"],
    generatedContent := some
      { details :=
          ⟨["Name"], "desc", ["tag"], "seoT", "seoD", "caption", "meas", "ship", "care", "$1"⟩,
        images := [demoImageA, demoImageB, demoImageC],
        furnitureCategory := "sofa" },
    isGenerating := false,
    isUpdatingDetails := false,
    generatingMessage := "",
    editingImageId := none,
    error := none,
    creativeStyle := CreativeStyle.modern_suburban }

/-- Witness for C5 at a concrete populated state and a concrete failure. -/
theorem edit_failure_leaves_results_untouched_witness :
    ((handleRegenerateImageFlat demoAppStateFlat demoImageA (Except.error "boom")).generatedContent =
        demoAppStateFlat.generatedContent
      ∧ (handleRegenerateImageFlat demoAppStateFlat demoImageA (Except.error "boom")).uploadedFiles =
        demoAppStateFlat.uploadedFiles)
    ∧ (handleRegenerateImageFlat demoAppStateFlat demoImageA (Except.error "boom")).error =
        some ("Regeneration failed for \"" ++ demoImageA.title ++ "\": " ++ "boom") :=
  ⟨edit_failure_leaves_results_untouched.1 demoAppStateFlat demoImageA "boom",
   edit_failure_leaves_results_untouched.2.2.2.2 demoAppStateFlat demoImageA "boom"
     (by decide) (by decide)⟩

/-- Counterexample for C6 as stated: the lazy generation-client module
(`src/unnamed/part_001`) loads successfully even when the credential is
absent from the environment, so startup does not fail there. -/
theorem moduleInit_lazy_loads_without_credential :
    geminiServiceModuleInitLazy none = Except.ok () := rfl

/-- C6 (amended): the two eager generation-client modules throw at module
load exactly when the credential is absent or empty, and load successfully
when a non-empty credential is present; the lazy variant's module load always
succeeds, deferring client construction to first use. -/
theorem moduleInit_credential_check :
    ∀ apiKey : Option String,
      (geminiServiceModuleInitEager apiKey = Except.error apiKeyErrorMessage ↔
          (apiKey = none ∨ apiKey = some ""))
        ∧ geminiServiceModuleInitLazy apiKey = Except.ok () := by
  intro apiKey
  refine ⟨?_, rfl⟩
  cases apiKey with
  | none => simp [geminiServiceModuleInitEager, jsTruthyString]
  | some s =>
      by_cases h : s = "" <;>
        simp [geminiServiceModuleInitEager, jsTruthyString, h]

/-- Witness for C6 at a concrete present credential. -/
theorem moduleInit_credential_check_witness :
    geminiServiceModuleInitLazy (some "key") = Except.ok () :=
  (moduleInit_credential_check (some "key")).2

theorem enumFrom_map_of_index_free {α β : Type} (f : Nat × α → β) (g : α → β)
    (h : ∀ i a, f (i, a) = g a) :
    ∀ (n : Nat) (l : List α), (List.enumFrom n l).map f = l.map g := by
  intro n l
  induction l generalizing n with
  | nil => rfl
  | cons a l ih => simp [List.enumFrom, h, ih]

theorem variationImagesFor_shape (gen : String → String) (uuid : Nat → String)
    (totalVariations : Nat) (primaryProductName instructionsText : String)
    (v : VariationAttributes) :
    (variationImagesFor gen uuid totalVariations primaryProductName instructionsText v).map
        (fun img => (img.title, img.category)) =
      if totalVariations = 1 then
        [("Studio Shot (Front View)", ImageCategory.studio),
         ("Studio Shot (3/4 View)", ImageCategory.studio),
         ("Lifestyle: Living Space", ImageCategory.lifestyle),
         ("Lifestyle: Atmospheric/Cozy", ImageCategory.lifestyle),
         ("Lifestyle: Architectural Loft", ImageCategory.lifestyle)]
      else
        [("Studio Shot (Front View)", ImageCategory.studio),
         ("Minimalist Lifestyle Scene", ImageCategory.lifestyle)] := by
  by_cases h : totalVariations = 1 <;> simp [variationImagesFor, h]

/-- C10: in the spec-sheet pipeline with user instructions, each variation's
image set is determined by the parsed variation count: a single parsed
variation receives five images (front and 3/4 studio views plus three
lifestyle scenes), while with more than one variation every variation
receives exactly two (one studio front view plus one lifestyle scene). -/
theorem generateVariationsFromSpecSheet_images_per_variation :
    ∀ (gen : String → String) (uuid : Nat → Nat → String) (parsed : ParsedSpecSheet)
      (baseDetails : ProductDetails) (userInstructions : String),
      (generateVariationsFromSpecSheet gen uuid parsed baseDetails
            userInstructions).variationResults.map
          (fun r => r.images.map (fun img => (img.title, img.category))) =
        parsed.variations.map (fun _ =>
          if parsed.variations.length = 1 then
            [("Studio Shot (Front View)", ImageCategory.studio),
             ("Studio Shot (3/4 View)", ImageCategory.studio),
             ("Lifestyle: Living Space", ImageCategory.lifestyle),
             ("Lifestyle: Atmospheric/Cozy", ImageCategory.lifestyle),
             ("Lifestyle: Architectural Loft", ImageCategory.lifestyle)]
          else
            [("Studio Shot (Front View)", ImageCategory.studio),
             ("Minimalist Lifestyle Scene", ImageCategory.lifestyle)]) := by
  intro gen uuid parsed baseDetails userInstructions
  unfold generateVariationsFromSpecSheet
  dsimp only
  rw [List.map_map, List.enum]
  exact enumFrom_map_of_index_free _ _
    (fun i a => variationImagesFor_shape gen (uuid i) parsed.variations.length _ _ a)
    0 parsed.variations

/-- ASCII lowercasing as the specification states it: characters in `A`-`Z`
shift by 32, all others stay. -/
def lowerAscii (c : Char) : Char :=
  if 'A' ≤ c ∧ c ≤ 'Z' then Char.ofNat (c.toNat + 32) else c

/-- Specification-side sanitizer, in the claim's vocabulary: each character
outside `[A-Za-z0-9]` becomes `'_'` and the name is lowercased. -/
def sanitizeSpec (cs : List Char) : List Char :=
  cs.map (fun c =>
    if ('a' ≤ c ∧ c ≤ 'z') ∨ ('A' ≤ c ∧ c ≤ 'Z') ∨ ('0' ≤ c ∧ c ≤ '9') then lowerAscii c else '_')

theorem toLower_eq_lowerAscii (d : Char) : Char.toLower d = lowerAscii d := by
  simp only [Char.toLower, lowerAscii, Char.le_def]
  have h65 : ('A' : Char).val = 65 := rfl
  have h90 : ('Z' : Char).val = 90 := rfl
  rw [h65, h90]
  rfl

theorem isAlphanum_iff_ranges (c : Char) :
    c.isAlphanum = true ↔
      (('a' ≤ c ∧ c ≤ 'z') ∨ ('A' ≤ c ∧ c ≤ 'Z') ∨ ('0' ≤ c ∧ c ≤ '9')) := by
  simp [Char.isAlphanum, Char.isAlpha, Char.isLower, Char.isUpper, Char.isDigit, Char.le_def]
  tauto

theorem sanitize_char_eq (c : Char) :
    Char.toLower (if c.isAlphanum then c else '_') =
      if ('a' ≤ c ∧ c ≤ 'z') ∨ ('A' ≤ c ∧ c ≤ 'Z') ∨ ('0' ≤ c ∧ c ≤ '9') then lowerAscii c
      else '_' := by
  by_cases h : c.isAlphanum = true
  · rw [if_pos h, if_pos ((isAlphanum_iff_ranges c).mp h), toLower_eq_lowerAscii]
  · rw [if_neg h, if_neg (fun hr => h ((isAlphanum_iff_ranges c).mpr hr))]
    rfl

theorem sanitizeFileName_eq_spec (cs : List Char) :
    sanitizeFileName cs = sanitizeSpec cs := by
  unfold sanitizeFileName sanitizeSpec
  rw [List.map_map]
  exact List.map_congr_left (fun c _ => sanitize_char_eq c)

theorem append_png_ne (s t : String) (h : t.data.reverse.head? ≠ some 'g') :
    s ++ ".png" ≠ t := by
  intro he
  apply h
  rw [← he]
  have h1 : (s ++ ".png").data = s.data ++ ['.', 'p', 'n', 'g'] := String.data_append s ".png"
  rw [h1, List.reverse_append]
  rfl

theorem zipArchive_foldl_of_nodup (regs : List (String × String)) :
    ∀ acc : List (String × String),
      (acc.map Prod.fst ++ regs.map Prod.fst).Nodup →
        List.foldl zipFileAdd acc regs = acc ++ regs := by
  induction regs with
  | nil =>
      intro acc _
      simp
  | cons e rest ih =>
      intro acc h
      simp only [List.map_cons] at h
      have hd : e.1 ∉ acc.map Prod.fst := fun hmem =>
        (List.nodup_append.mp h).2.2 hmem (List.mem_cons_self _ _)
      have hstep : zipFileAdd acc e = acc ++ [e] := by
        unfold zipFileAdd
        rw [if_neg]
        intro hx
        rcases List.any_eq_true.mp hx with ⟨x, hxmem, hxeq⟩
        have hfst : x.1 = e.1 := by simpa using hxeq
        exact hd (hfst ▸ List.mem_map_of_mem Prod.fst hxmem)
      rw [List.foldl_cons, hstep, ih (acc ++ [e]) (by simpa [List.append_assoc] using h)]
      simp

theorem zipArchive_eq_of_nodup_names (regs : List (String × String))
    (h : (regs.map Prod.fst).Nodup) : zipArchive regs = regs := by
  simpa [zipArchive] using zipArchive_foldl_of_nodup regs [] (by simpa using h)

/-- Two distinct social images whose titles sanitize to the same filename
`post__1_.png`. -/
def demoCollideA : GeneratedImage :=
  ⟨"id-x", "Post (1)", "desc x", "payloadX", "prompt x", AspectRatio.a1x1, ImageCategory.social⟩

/-- Second colliding image; its title differs but sanitizes identically. -/
def demoCollideB : GeneratedImage :=
  ⟨"id-y", "Post *1*", "desc y", "payloadY", "prompt y", AspectRatio.a1x1, ImageCategory.social⟩

/-- Counterexample for C4 as stated: the social-kit exporter names image
entries `<sanitized title>.png` with no index prefix, and JSZip replaces a
same-named entry, so two images whose titles sanitize identically yield an
archive with fewer entries than the image count plus one. -/
theorem social_zip_title_collision :
    (zipArchive (createAndDownloadSocialMediaZip [demoCollideA, demoCollideB] "caption")).length ≠
      [demoCollideA, demoCollideB].length + 1 := by decide

/-- C4 (amended): each ZIP exporter registers exactly one file entry per
included image plus exactly one metadata file (`caption.txt`, `details.txt`
or `shopify_import.csv`), every image filename embedding the title sanitized
per the spec (`[^A-Za-z0-9] → '_'`, then lowercased); since JSZip replaces a
same-named entry, the resulting archive holds one entry per distinct
registered name, so its entry count equals the image count plus one whenever
the registered filenames are pairwise distinct — in particular a social-kit
title collision overwrites the earlier image and yields fewer entries. -/
theorem zip_export_entry_counts :
    (∀ (images : List GeneratedImage) (caption : String),
        (createAndDownloadSocialMediaZip images caption).length = images.length + 1)
    ∧ (∀ (images : List GeneratedImage) (caption : String),
        (createAndDownloadSocialMediaZip images caption).countP
          (fun e => e.1 == "caption.txt") = 1)
    ∧ (∀ (images : List GeneratedImage) (caption : String),
        (createAndDownloadSocialMediaZip images caption).map Prod.fst =
          "caption.txt" ::
            images.map (fun img => String.mk (sanitizeSpec img.title.data) ++ ".png"))
    ∧ (∀ (images : List GeneratedImage) (productName productDescription : String),
        (createAndDownloadZip images productName productDescription).length =
          images.length + 1)
    ∧ (∀ (images : List GeneratedImage) (productName productDescription : String),
        (createAndDownloadZip images productName productDescription).countP
          (fun e => e.1 == "details.txt") = 1)
    ∧ (∀ (images : List GeneratedImage) (productName productDescription : String),
        (createAndDownloadZip images productName productDescription).map Prod.fst =
          "details.txt" ::
            images.enum.map (fun p =>
              Nat.repr (p.1 + 1) ++ "_" ++ String.mk (sanitizeSpec p.2.title.data) ++ ".png"))
    ∧ (∀ (data : ShopifyExportData), (shopifyImagesOf data).isEmpty = false →
        ∃ entries, createAndDownloadShopifyZip data = some entries
          ∧ entries.length = (shopifyImagesOf data).length + 1
          ∧ entries.countP (fun e => e.1 == "shopify_import.csv") = 1
          ∧ entries.map Prod.fst =
              (shopifyImagesOf data).enum.map (fun p =>
                shopifyHandle data.productName ++ "_" ++ Nat.repr (p.1 + 1) ++ "_" ++
                  String.mk (sanitizeSpec p.2.title.data) ++ ".png")
                ++ ["shopify_import.csv"])
    ∧ (∀ registrations : List (String × String),
        (registrations.map Prod.fst).Nodup → zipArchive registrations = registrations)
    ∧ (∀ (images : List GeneratedImage) (caption : String),
        ((createAndDownloadSocialMediaZip images caption).map Prod.fst).Nodup →
          (zipArchive (createAndDownloadSocialMediaZip images caption)).length =
            images.length + 1)
    ∧ (∀ (images : List GeneratedImage) (productName productDescription : String),
        ((createAndDownloadZip images productName productDescription).map Prod.fst).Nodup →
          (zipArchive (createAndDownloadZip images productName productDescription)).length =
            images.length + 1) := by
  refine ⟨?_, ?_, ?_, ?_, ?_, ?_, ?_, ?_, ?_, ?_⟩
  · intro images caption
    simp [createAndDownloadSocialMediaZip]
  · intro images caption
    simp only [createAndDownloadSocialMediaZip, List.countP_cons]
    rw [List.countP_eq_zero.mpr]
    · simp
    · intro e he
      simp only [List.mem_map] at he
      obtain ⟨img, _, rfl⟩ := he
      simp only [beq_iff_eq]
      exact fun hx => append_png_ne _ _ (by decide) hx
  · intro images caption
    simp [createAndDownloadSocialMediaZip, sanitizeFileName_eq_spec]
  · intro images productName productDescription
    simp [createAndDownloadZip, List.enum_length]
  · intro images productName productDescription
    simp only [createAndDownloadZip, List.countP_cons]
    rw [List.countP_eq_zero.mpr]
    · simp
    · intro e he
      simp only [List.mem_map] at he
      obtain ⟨p, _, rfl⟩ := he
      simp only [beq_iff_eq]
      exact fun hx => append_png_ne _ _ (by decide) hx
  · intro images productName productDescription
    simp [createAndDownloadZip, sanitizeFileName_eq_spec]
  · intro data h
    refine ⟨shopifyImageEntriesOf data ++
      [("shopify_import.csv", toCSVString (shopifyRowsOf data))], ?_, ?_, ?_, ?_⟩
    · unfold createAndDownloadShopifyZip
      rw [if_neg (by simp [h])]
    · simp [shopifyImageEntriesOf, List.enum_length]
    · rw [List.countP_append, List.countP_eq_zero.mpr]
      · simp
      · intro e he
        simp only [shopifyImageEntriesOf, List.mem_map] at he
        obtain ⟨p, _, rfl⟩ := he
        simp only [beq_iff_eq, shopifyImageName]
        exact fun hx => append_png_ne _ _ (by decide) hx
    · simp [shopifyImageEntriesOf, shopifyImageName, sanitizeFileName_eq_spec,
        String.append_assoc]
  · exact zipArchive_eq_of_nodup_names
  · intro images caption h
    rw [zipArchive_eq_of_nodup_names _ h]
    simp [createAndDownloadSocialMediaZip]
  · intro images productName productDescription h
    rw [zipArchive_eq_of_nodup_names _ h]
    simp [createAndDownloadZip, List.enum_length]

/-- Demo Shopify export data: two non-social images (one of which would keep
the same sanitized title if duplicated) and one social image. -/
def demoShopifyData : ShopifyExportData :=
  { images := [demoImageA, demoImageB, demoImageC],
    productName := "My Sofa",
    description := "A nice, \"cozy\" sofa",
    vendor := "Altera",
    price := "999.99",
    tags := ["sofa", "modern"],
    productType := "sofa",
    seoTitle := "seo title",
    seoDescription := "seo description" }

/-- Witness for C4 at concrete export data whose filtered image list is
non-empty, and at a concrete social kit whose sanitized filenames are
pairwise distinct. -/
theorem zip_export_entry_counts_witness :
    (∃ entries, createAndDownloadShopifyZip demoShopifyData = some entries
      ∧ entries.length = (shopifyImagesOf demoShopifyData).length + 1
      ∧ entries.countP (fun e => e.1 == "shopify_import.csv") = 1
      ∧ entries.map Prod.fst =
          (shopifyImagesOf demoShopifyData).enum.map (fun p =>
            shopifyHandle demoShopifyData.productName ++ "_" ++ Nat.repr (p.1 + 1) ++ "_" ++
              String.mk (sanitizeSpec p.2.title.data) ++ ".png")
            ++ ["shopify_import.csv"])
    ∧ (zipArchive (createAndDownloadSocialMediaZip [demoImageA, demoImageB] "caption")).length =
        [demoImageA, demoImageB].length + 1 :=
  ⟨zip_export_entry_counts.2.2.2.2.2.2.1 demoShopifyData (by decide),
   zip_export_entry_counts.2.2.2.2.2.2.2.2.1 [demoImageA, demoImageB] "caption" (by decide)⟩

/-- C9: the Shopify export keeps only non-social images; when none remains it
produces neither a ZIP nor a CSV (`none`, a user alert aside); otherwise the
ZIP is the kept-image entries plus the serialized CSV, whose row after the
header carries the full product details and whose every later row carries
only handle, image filename, position and alt text. -/
theorem shopify_export_filters_and_rows :
    (∀ (data : ShopifyExportData) (img : GeneratedImage),
        img ∈ shopifyImagesOf data → img.category ≠ ImageCategory.social)
    ∧ (∀ data : ShopifyExportData, (shopifyImagesOf data).isEmpty = true →
        createAndDownloadShopifyZip data = none)
    ∧ (∀ data : ShopifyExportData, (shopifyImagesOf data).isEmpty = false →
        createAndDownloadShopifyZip data =
          some (shopifyImageEntriesOf data ++
            [("shopify_import.csv", toCSVString (shopifyRowsOf data))]))
    ∧ (∀ data : ShopifyExportData, (shopifyRowsOf data)[0]? = some shopifyHeaders)
    ∧ (∀ (data : ShopifyExportData) (img : GeneratedImage),
        (shopifyImagesOf data)[0]? = some img →
          (shopifyRowsOf data)[1]? = some
            [shopifyHandle data.productName, data.productName, data.description, data.vendor,
             "Home & Garden > Furniture", data.productType, String.intercalate ", " data.tags,
             "TRUE", "Title", "Default Title", "", data.price,
             shopifyImageName (shopifyHandle data.productName) 0 img, "1", img.title,
             data.seoTitle, data.seoDescription, "FALSE"])
    ∧ (∀ (data : ShopifyExportData) (i : Nat) (img : GeneratedImage),
        (shopifyImagesOf data)[i]? = some img → i ≠ 0 →
          (shopifyRowsOf data)[i + 1]? = some
            [shopifyHandle data.productName, "", "", "", "", "", "", "", "", "", "", "",
             shopifyImageName (shopifyHandle data.productName) i img, Nat.repr (i + 1),
             img.title, "", "", ""]) := by
  refine ⟨?_, ?_, ?_, ?_, ?_, ?_⟩
  · intro data img h
    have := (List.mem_filter.mp h).2
    simpa using this
  · intro data h
    unfold createAndDownloadShopifyZip
    rw [if_pos h]
  · intro data h
    unfold createAndDownloadShopifyZip
    rw [if_neg (by simp [h])]
  · intro data
    simp [shopifyRowsOf]
  · intro data img h
    simp [shopifyRowsOf, List.getElem?_map, List.getElem?_enum, h, shopifyRowFor]
  · intro data i img h hi
    simp [shopifyRowsOf, List.getElem?_map, List.getElem?_enum, h, shopifyRowFor, hi]

/-- Witness for C9 at concrete data: the export is produced, row 1 is full,
row 2 is sparse; and with only social images the export is a no-op. -/
theorem shopify_export_filters_and_rows_witness :
    createAndDownloadShopifyZip demoShopifyData =
        some (shopifyImageEntriesOf demoShopifyData ++
          [("shopify_import.csv", toCSVString (shopifyRowsOf demoShopifyData))])
      ∧ (shopifyRowsOf demoShopifyData)[2]? = some
          [shopifyHandle demoShopifyData.productName, "", "", "", "", "", "", "", "", "", "", "",
           shopifyImageName (shopifyHandle demoShopifyData.productName) 1 demoImageB,
           Nat.repr 2, demoImageB.title, "", "", ""]
      ∧ createAndDownloadShopifyZip { demoShopifyData with images := [demoImageC] } = none :=
  ⟨shopify_export_filters_and_rows.2.2.1 demoShopifyData (by decide),
   shopify_export_filters_and_rows.2.2.2.2.2 demoShopifyData 1 demoImageB (by decide) (by decide),
   shopify_export_filters_and_rows.2.1 { demoShopifyData with images := [demoImageC] } (by decide)⟩
